import Mathlib

/-!
Verification of the caption-generation core of the sns-caption-generator app
(src/app.py): the prompt builder `build_prompt_template`, the response parser
`parse_captions`, and the submission orchestration around them. Python strings
are modelled as Lean `String`; the completion API is modelled as an oracle
returning either raw completion text or an error message.
-/

/-- Python str.strip. Removes leading and trailing whitespace; the whitespace
characters modelled (space, tab, carriage return, newline) are the ones that
occur in this app. -/
def pyStrip (s : String) : String :=
  String.mk (((s.data.dropWhile Char.isWhitespace).reverse.dropWhile Char.isWhitespace).reverse)

/-- Split a character list at newline characters. -/
def splitAtNewlines : List Char → List (List Char)
  | [] => [[]]
  | c :: cs =>
      match splitAtNewlines cs with
      | [] => [[c]]
      | r :: rs => if c = '\n' then [] :: r :: rs else (c :: r) :: rs

/-- Python str.splitlines, modelled over newline boundaries. Differences to
CPython (it also splits on rare control characters, and drops a trailing
empty piece) are absorbed in `parse_captions` because every line is trimmed
and empty lines are filtered out there. -/
def pySplitlines (s : String) : List String :=
  (splitAtNewlines s.data).map String.mk

/-- Python membership test for a single character in a string, as in line 47
and 49 of app.py. -/
def pyContains (s : String) (c : Char) : Bool :=
  s.data.any (fun d => d = c)

/-- The characters after the first occurrence of sep, and the empty list when
sep does not occur. -/
def afterFirst (sep : Char) : List Char → List Char
  | [] => []
  | c :: cs => if c = sep then cs else afterFirst sep cs

/-- Python s.split(sep, 1)[1]: everything after the first occurrence of sep.
Defined (as []) also when sep is absent, but only used under a membership
guard, exactly as in app.py lines 47-50. -/
def pySplitOnceTail (s : String) (sep : Char) : String :=
  String.mk (afterFirst sep s.data)

/-- Line 40 of app.py: the non-empty trimmed lines of the raw completion. -/
def nonEmptyTrimmedLines (raw : String) : List String :=
  ((pySplitlines (pyStrip raw)).map pyStrip).filter (fun l => l != "")

/-- The loop body of parse_captions (app.py lines 44-51): strip a leading
enumeration marker from a digit-initial line. In app.py the line is always
non-empty (empty lines were filtered); `List.headD` with a non-digit default
makes the Lean function total with the same behaviour on the reachable
inputs. -/
def cleanLine (line : String) : String :=
  if (line.data.headD ' ').isDigit then
    if pyContains line '.' then pyStrip (pySplitOnceTail line '.')
    else if pyContains line ')' then pyStrip (pySplitOnceTail line ')')
    else line
  else line

/-- parse_captions (app.py lines 38-52). -/
def parse_captions (raw : String) : List String :=
  (nonEmptyTrimmedLines raw).map cleanLine

/-- A system instruction paired with the user-content message, the formatted
counterpart of the ChatPromptTemplate built in app.py. -/
structure PromptPair where
  systemInstruction : String
  userContent : String
  deriving DecidableEq

/-- build_prompt_template (app.py lines 14-36), with the template placeholders
already substituted: the f-string fills num_variants, platform and tone, and
the human template is filled with the description at chain.run time (line 93)
using the same description value passed here. The language parameter is
accepted (Python default value 日本語) but never used. -/
def build_prompt_template (platform tone description : String) (num_variants : Nat)
    (language : String) : PromptPair :=
  { systemInstruction :=
      "\nYou are an expert copywriter for social media. \nGiven a content description, generate "
        ++ toString num_variants
        ++ " unique short captions tailored for "
        ++ platform
        ++ " in a "
        ++ tone
        ++ " tone.\nEach caption should:\n- Fit typical length constraints of "
        ++ platform
        ++ " (keep it concise)\n- Include 1-3 relevant hashtags at the end\n- Be distinct from each other\nReturn the captions as a numbered list (1., 2., ...) with the caption only (no extra explanation).\n"
    userContent := "\nContent description:\n" ++ description ++ "\n" }

/-- The summary prompt of app.py lines 117-122, with the description filled in
as user content (line 124). Its system instruction hardcodes Japanese and
takes no language parameter. -/
def summary_prompt (description : String) : PromptPair :=
  { systemInstruction :=
      "あなたは日本語の要約の専門家です。以下の内容説明を読み、読み手に伝わりやすい自然な日本語で、短く一文に要約してください。"
    userContent := description }

/-- The platform options of the selectbox in app.py line 70. -/
def platformOptions : List String :=
  ["Instagram", "Twitter", "X", "Facebook", "TikTok", "LinkedIn", "Threads"]

/-- The tone options of the selectbox in app.py line 72. -/
def toneOptions : List String :=
  ["カジュアル", "エモーショナル", "プロフェッショナル", "ユーモラス", "シンプル", "情熱的"]

/-- The language options of the selectbox in app.py line 74. -/
def languageOptions : List String := ["日本語", "English"]

/-- Observable outcome of the submitted handler: whether a caption prompt was
built, whether the completion API was invoked, and the resulting caption list
or error. -/
structure SubmitTrace where
  promptBuilt : Bool
  apiCalled : Bool
  result : Except String (List String)

/-- The submitted handler of app.py lines 81-101. An empty or whitespace-only
description raises the validation error and stops before the prompt is built
or the API called (lines 82-84). Otherwise the caption prompt is built and
the chain is run through the completion API oracle; an API failure becomes a
generation error (lines 99-101), and an empty parse falls back to the trimmed
raw output as the sole caption (lines 94-97). -/
def submitted_handler (description platform tone : String) (num_variants : Nat)
    (language : String) (api : PromptPair → Except String String) : SubmitTrace :=
  if pyStrip description = "" then
    { promptBuilt := false, apiCalled := false
      result := Except.error "ValidationError" }
  else
    match api (build_prompt_template platform tone description num_variants language) with
    | Except.error e =>
        { promptBuilt := true, apiCalled := true, result := Except.error e }
    | Except.ok raw_output =>
        let captions := parse_captions raw_output
        { promptBuilt := true, apiCalled := true
          result := Except.ok (if captions = [] then [pyStrip raw_output] else captions) }

/-- The best-effort summary call of app.py lines 116-127: any failure of the
summary oracle is caught and converted into an absent result. -/
def generate_summary (description : String)
    (summaryApi : PromptPair → Except String String) : Option String :=
  match summaryApi (summary_prompt description) with
  | Except.error _ => none
  | Except.ok summary => some (pyStrip summary)

/-- The truncation applied at display time (app.py lines 104 and 111): only
the first num_variants captions are shown. -/
def displayed_captions (captions : List String) (num_variants : Nat) : List String :=
  captions.take num_variants

/-- The whole post-submission flow: captions first (app.py lines 81-101), then
the summary (lines 116-127) only when caption generation succeeded, since the
handler stops on error (line 101). -/
def run_app (description platform tone : String) (num_variants : Nat) (language : String)
    (api summaryApi : PromptPair → Except String String) :
    Except String (List String) × Option String :=
  match (submitted_handler description platform tone num_variants language api).result with
  | Except.error e => (Except.error e, none)
  | Except.ok caps => (Except.ok caps, generate_summary description summaryApi)

/-- Spec-side formulation of the marker stripping: everything after the first
occurrence of a character, here phrased with dropWhile rather than the split
of app.py, to compare the two formulations. -/
def everythingAfterFirst (c : Char) (l : List Char) : List Char :=
  (l.dropWhile (fun d => d != c)).tail

/-- Spec-side formulation of the per-line cleaning step: on a line whose first
character is a digit, take everything after the first occurrence of a dot if
a dot is present anywhere in the line, else after the first occurrence of a
closing parenthesis if present, otherwise keep the line unchanged; a line not
starting with a digit is kept unchanged. The trimming of the remainder
matches the worked examples of the spec. -/
def cleanLineSpec (line : String) : String :=
  match line.data with
  | [] => line
  | c :: _ =>
      if c.isDigit then
        if '.' ∈ line.data then pyStrip (String.mk (everythingAfterFirst '.' line.data))
        else if ')' ∈ line.data then pyStrip (String.mk (everythingAfterFirst ')' line.data))
        else line
      else line

/-- Spec-side formulation of the whole parsing algorithm: split the input into
non-empty trimmed lines and clean each line in order. -/
def parseCaptionsSpec (raw : String) : List String :=
  (nonEmptyTrimmedLines raw).map cleanLineSpec

/-- The pattern occurs as a contiguous substring of s: s decomposes as a left
part, the pattern, and a right part. -/
def containsSubstr (s pat : String) : Prop :=
  ∃ l r, s.data = l ++ (pat.data ++ r)

theorem pyContains_iff {s : String} {c : Char} : pyContains s c = true ↔ c ∈ s.data := by
  simp [pyContains]

theorem afterFirst_eq_dropWhile (c : Char) (l : List Char) :
    afterFirst c l = (l.dropWhile (fun d => d != c)).tail := by
  induction l with
  | nil => rfl
  | cons d ds ih =>
      by_cases hd : d = c
      · subst hd
        simp [afterFirst, List.dropWhile_cons]
      · simp [afterFirst, List.dropWhile_cons, hd, ih]

theorem afterFirst_append_self (c : Char) (l : List Char) (h : c ∉ l) :
    afterFirst c (l ++ [c]) = [] := by
  induction l with
  | nil => simp [afterFirst]
  | cons d ds ih =>
      simp only [List.mem_cons, not_or] at h
      simp only [List.cons_append, afterFirst, if_neg (Ne.symm h.1)]
      exact ih h.2

theorem cleanLine_eq_cleanLineSpec (line : String) : cleanLine line = cleanLineSpec line := by
  unfold cleanLine cleanLineSpec pySplitOnceTail everythingAfterFirst
  rw [afterFirst_eq_dropWhile, afterFirst_eq_dropWhile]
  cases h : line.data with
  | nil => simp [pyContains, h]
  | cons c cs =>
      have hdot : pyContains line '.' = true ↔ '.' ∈ c :: cs := by rw [pyContains_iff, h]
      have hpar : pyContains line ')' = true ↔ ')' ∈ c :: cs := by rw [pyContains_iff, h]
      cases hdotb : pyContains line '.' with
      | true =>
          have hm1 : '.' ∈ c :: cs := hdot.mp hdotb
          simp [hm1]
      | false =>
          have hm1 : '.' ∉ c :: cs := fun hm => by simp [hdot.mpr hm] at hdotb
          cases hparb : pyContains line ')' with
          | true =>
              have hm2 : ')' ∈ c :: cs := hpar.mp hparb
              simp [hm1, hm2]
          | false =>
              have hm2 : ')' ∉ c :: cs := fun hm => by simp [hpar.mpr hm] at hparb
              simp [hm1, hm2]

theorem getD_map (f : String → String) (l : List String) (i : Nat) (d : String) :
    (l.map f).getD i (f d) = f (l.getD i d) := by
  induction l generalizing i with
  | nil => simp [List.getD]
  | cons a t ih =>
      cases i with
      | zero => rfl
      | succ j => exact ih j

theorem data_append (a b : String) : (a ++ b).data = a.data ++ b.data := by
  cases a
  cases b
  rfl

example : parse_captions "1. Sunny beach day #summer #vibes\n2. Coffee and a good book #mood"
    = ["Sunny beach day #summer #vibes", "Coffee and a good book #mood"] := by decide

example : parse_captions "- Just a dash line" = ["- Just a dash line"] := by decide

example : parse_captions "" = [] := by decide

example : parse_captions "5 no delimiter here" = ["5 no delimiter here"] := by decide

example : parse_captions "1." = [""] := by decide

example : parse_captions "2)" = [""] := by decide

example : parse_captions " \n " = [] := by decide

/-- C1: parse_captions splits its input into non-empty trimmed lines and, for
every line whose first character is a digit, strips the leading enumeration
marker by taking everything after the first occurrence of a dot if a dot is
present anywhere in the line, else everything after the first occurrence of a
closing parenthesis if present, and otherwise keeps the line unchanged; lines
not starting with a digit are kept unchanged. The three worked examples of
the spec hold. -/
theorem spec_C1 :
    (∀ raw, parse_captions raw = parseCaptionsSpec raw) ∧
    parse_captions "1. Sunny beach day #summer #vibes\n2. Coffee and a good book #mood"
      = ["Sunny beach day #summer #vibes", "Coffee and a good book #mood"] ∧
    parse_captions "- Just a dash line" = ["- Just a dash line"] ∧
    parse_captions "" = [] := by
  refine ⟨fun raw => ?_, by decide, by decide, by decide⟩
  unfold parse_captions parseCaptionsSpec
  rw [funext cleanLine_eq_cleanLineSpec]

/-- C2: the list returned by parse_captions preserves the order of appearance
of the input lines (element i is the cleaned i-th non-empty trimmed line),
its length is at most the number of non-empty trimmed lines of the input, and
parse_captions performs no truncation to the variant count, no deduplication
and no hashtag validation: on an input of 8 numbered lines it returns all 8
captions, while the display-time truncation is a separate take. -/
theorem spec_C2 :
    (∀ raw, (parse_captions raw).length ≤ (nonEmptyTrimmedLines raw).length) ∧
    (∀ raw i, (parse_captions raw).getD i ""
      = cleanLine ((nonEmptyTrimmedLines raw).getD i "")) ∧
    parse_captions "1. a\n2. b\n3. c\n4. d\n5. e\n6. f\n7. g\n8. h"
      = ["a", "b", "c", "d", "e", "f", "g", "h"] ∧
    (∀ num_variants, 3 ≤ num_variants → num_variants ≤ 8 →
      (parse_captions "1. a\n2. b\n3. c\n4. d\n5. e\n6. f\n7. g\n8. h").length = 8) ∧
    displayed_captions (parse_captions "1. a\n2. b\n3. c\n4. d\n5. e\n6. f\n7. g\n8. h") 3
      = ["a", "b", "c"] ∧
    parse_captions "1. same tag #x\n2. same tag #x" = ["same tag #x", "same tag #x"] := by
  refine ⟨fun raw => Nat.le_of_eq ?_, fun raw i => ?_, by decide,
    fun _ _ _ => by decide, by decide, by decide⟩
  · unfold parse_captions
    exact List.length_map _ _
  · unfold parse_captions
    exact getD_map cleanLine (nonEmptyTrimmedLines raw) i ""

/-- C2 witness: at 8 numbered input lines and the in-range variant count 3,
parse_captions still returns a list of length 8. -/
theorem spec_C2_witness :
    (parse_captions "1. a\n2. b\n3. c\n4. d\n5. e\n6. f\n7. g\n8. h").length = 8 :=
  (spec_C2).2.2.2.1 3 (by decide) (by decide)

/-- C3: parse_captions is total and the cleaning step is a no-op on any line
whose first character is a digit but which contains neither a dot nor a
closing parenthesis; in particular the single worked example of the spec
holds and a line consisting of a single digit is kept unchanged. -/
theorem spec_C3 :
    parse_captions "5 no delimiter here" = ["5 no delimiter here"] ∧
    (∀ line, (line.data.headD ' ').isDigit = true →
      pyContains line '.' = false → pyContains line ')' = false →
      cleanLine line = line) := by
  refine ⟨by decide, fun line hd h1 h2 => ?_⟩
  simp [cleanLine, hd, h1, h2]

/-- C3 witness: the line consisting of the single digit 5 starts with a digit,
contains no dot and no closing parenthesis, and is cleaned to itself. -/
theorem spec_C3_witness : cleanLine "5" = "5" :=
  (spec_C3).2 "5" (by decide) (by decide) (by decide)

/-- C4: whenever the completion API call returns without error and the
description passed validation, the resulting caption list is non-empty: if
parse_captions on the raw completion yields the empty list, the handler falls
back to the single-element list containing the trimmed raw completion. -/
theorem spec_C4 (description platform tone language raw : String) (num_variants : Nat)
    (api : PromptPair → Except String String)
    (hdesc : pyStrip description ≠ "")
    (hapi : api (build_prompt_template platform tone description num_variants language)
      = Except.ok raw) :
    (∃ caps, (submitted_handler description platform tone num_variants language api).result
        = Except.ok caps ∧ caps ≠ []) ∧
    (parse_captions raw = [] →
      (submitted_handler description platform tone num_variants language api).result
        = Except.ok [pyStrip raw]) := by
  unfold submitted_handler
  rw [if_neg hdesc, hapi]
  constructor
  · by_cases hp : parse_captions raw = []
    · exact ⟨[pyStrip raw], by simp [hp], by simp⟩
    · exact ⟨parse_captions raw, by simp [hp], hp⟩
  · intro hp
    simp [hp]

/-- C4 witness: with a non-empty description and an API oracle answering pure
whitespace, the parse is empty and the handler returns the one-element list
containing the trimmed (here: empty) raw completion, which is non-empty as a
list. -/
theorem spec_C4_witness :
    (submitted_handler "Weekend at the beach" "Instagram" "カジュアル" 5 "日本語"
        (fun _ => Except.ok " \n ")).result = Except.ok [""] := by
  have h := (spec_C4 "Weekend at the beach" "Instagram" "カジュアル" "日本語" " \n " 5
      (fun _ => Except.ok " \n ") (by decide) rfl).2 (by decide)
  have hs : pyStrip " \n " = "" := by decide
  rw [hs] at h
  exact h

/-- C5: for well-formed requests (platform and tone among the selectbox
options, variant count between 3 and 8) the system instruction built by
build_prompt_template contains the exact platform string, the exact tone
string and the variant count rendered in decimal, and the user-content
message is exactly the description under the Content description label. -/
theorem spec_C5 (platform tone description language : String) (num_variants : Nat)
    (hp : platform ∈ platformOptions) (ht : tone ∈ toneOptions)
    (hn : 3 ≤ num_variants ∧ num_variants ≤ 8) :
    containsSubstr
      (build_prompt_template platform tone description num_variants language).systemInstruction
      platform ∧
    containsSubstr
      (build_prompt_template platform tone description num_variants language).systemInstruction
      tone ∧
    containsSubstr
      (build_prompt_template platform tone description num_variants language).systemInstruction
      (toString num_variants) ∧
    (build_prompt_template platform tone description num_variants language).userContent
      = "\nContent description:\n" ++ description ++ "\n" := by
  refine ⟨⟨("\nYou are an expert copywriter for social media. \nGiven a content description, generate "
        ++ toString num_variants ++ " unique short captions tailored for ").data,
      (" in a " ++ tone ++ " tone.\nEach caption should:\n- Fit typical length constraints of "
        ++ platform
        ++ " (keep it concise)\n- Include 1-3 relevant hashtags at the end\n- Be distinct from each other\nReturn the captions as a numbered list (1., 2., ...) with the caption only (no extra explanation).\n").data,
      ?_⟩,
      ⟨("\nYou are an expert copywriter for social media. \nGiven a content description, generate "
        ++ toString num_variants ++ " unique short captions tailored for "
        ++ platform ++ " in a ").data,
      (" tone.\nEach caption should:\n- Fit typical length constraints of "
        ++ platform
        ++ " (keep it concise)\n- Include 1-3 relevant hashtags at the end\n- Be distinct from each other\nReturn the captions as a numbered list (1., 2., ...) with the caption only (no extra explanation).\n").data,
      ?_⟩,
      ⟨("\nYou are an expert copywriter for social media. \nGiven a content description, generate ").data,
      (" unique short captions tailored for " ++ platform ++ " in a " ++ tone
        ++ " tone.\nEach caption should:\n- Fit typical length constraints of "
        ++ platform
        ++ " (keep it concise)\n- Include 1-3 relevant hashtags at the end\n- Be distinct from each other\nReturn the captions as a numbered list (1., 2., ...) with the caption only (no extra explanation).\n").data,
      ?_⟩, rfl⟩ <;>
    simp only [build_prompt_template, data_append, List.append_assoc]

/-- C5 witness: the containment properties evaluated at a concrete well-formed
request. -/
theorem spec_C5_witness :
    containsSubstr
      (build_prompt_template "Instagram" "カジュアル" "Weekend at the beach" 5 "日本語").systemInstruction
      "Instagram" ∧
    containsSubstr
      (build_prompt_template "Instagram" "カジュアル" "Weekend at the beach" 5 "日本語").systemInstruction
      "カジュアル" ∧
    containsSubstr
      (build_prompt_template "Instagram" "カジュアル" "Weekend at the beach" 5 "日本語").systemInstruction
      (toString 5) ∧
    (build_prompt_template "Instagram" "カジュアル" "Weekend at the beach" 5 "日本語").userContent
      = "\nContent description:\nWeekend at the beach\n" :=
  spec_C5 "Instagram" "カジュアル" "Weekend at the beach" "日本語" 5
    (by decide) (by decide) (by decide)

/-- C6: the language parameter does not influence the caption prompt: any two
language values give identical PromptPair output, and only the separate
summary instruction hardcodes a language (Japanese). -/
theorem spec_C6 (platform tone description : String) (num_variants : Nat)
    (lang1 lang2 : String) :
    build_prompt_template platform tone description num_variants lang1
      = build_prompt_template platform tone description num_variants lang2 ∧
    (∀ d, (summary_prompt d).systemInstruction
      = "あなたは日本語の要約の専門家です。以下の内容説明を読み、読み手に伝わりやすい自然な日本語で、短く一文に要約してください。") :=
  ⟨rfl, fun _ => rfl⟩

/-- C7: build_prompt_template is deterministic and stateless: two calls with
identical arguments yield identical PromptPair values, componentwise. -/
theorem spec_C7 (platform tone description language : String) (num_variants : Nat) :
    build_prompt_template platform tone description num_variants language
      = build_prompt_template platform tone description num_variants language ∧
    (build_prompt_template platform tone description num_variants language).systemInstruction
      = (build_prompt_template platform tone description num_variants language).systemInstruction ∧
    (build_prompt_template platform tone description num_variants language).userContent
      = (build_prompt_template platform tone description num_variants language).userContent :=
  ⟨rfl, rfl, rfl⟩

/-- C8: on an empty or whitespace-only description the handler stops with the
validation error before building a prompt or invoking the completion API. -/
theorem spec_C8 (description platform tone language : String) (num_variants : Nat)
    (api : PromptPair → Except String String)
    (h : pyStrip description = "") :
    submitted_handler description platform tone num_variants language api
      = { promptBuilt := false, apiCalled := false
          result := Except.error "ValidationError" } := by
  unfold submitted_handler
  rw [if_pos h]

/-- C8 witness: a whitespace-only description stops the handler with the
validation error and no prompt build or API call, for a concrete oracle. -/
theorem spec_C8_witness :
    submitted_handler "   " "Instagram" "カジュアル" 5 "日本語" (fun _ => Except.ok "1. x")
      = { promptBuilt := false, apiCalled := false
          result := Except.error "ValidationError" } :=
  spec_C8 "   " "Instagram" "カジュアル" "日本語" 5 (fun _ => Except.ok "1. x") (by decide)

/-- C9: the best-effort summary call never propagates an error: a failing
summary oracle yields an absent summary, and the caption component of the
whole flow is identical under any two summary oracles. -/
theorem spec_C9 (description platform tone language : String) (num_variants : Nat)
    (api sApi1 sApi2 : PromptPair → Except String String) (e : String) :
    generate_summary description (fun _ => Except.error e) = none ∧
    (run_app description platform tone num_variants language api sApi1).1
      = (run_app description platform tone num_variants language api sApi2).1 := by
  refine ⟨rfl, ?_⟩
  unfold run_app
  cases (submitted_handler description platform tone num_variants language api).result <;> rfl

/-- C10: parse_captions can return empty-string captions even though it only
processes non-empty lines: on a digit-initial line whose first dot is the
final character the cleaned result is the empty string, and likewise for a
closing parenthesis when no dot occurs. -/
theorem spec_C10 :
    parse_captions "1." = [""] ∧
    parse_captions "2)" = [""] ∧
    (∀ line c ds, line.data = c :: (ds ++ ['.']) → c.isDigit = true →
      '.' ∉ c :: ds → cleanLine line = "") := by
  refine ⟨by decide, by decide, fun line c ds h hc hmem => ?_⟩
  unfold cleanLine pySplitOnceTail
  have hhead : line.data.headD ' ' = c := by rw [h]; rfl
  have hmemdata : '.' ∈ line.data := by
    rw [h]
    simp
  have hcont : pyContains line '.' = true := pyContains_iff.mpr hmemdata
  rw [hhead, hc, if_pos rfl, hcont, if_pos rfl]
  have hafter : afterFirst '.' line.data = [] := by
    rw [h]
    exact afterFirst_append_self '.' (c :: ds) hmem
  rw [hafter]
  decide

/-- C10 witness: the line consisting of a digit followed by a dot cleans to
the empty string. -/
theorem spec_C10_witness : cleanLine "1." = "" :=
  (spec_C10).2.2 "1." '1' [] (by decide) (by decide) (by decide)
